import Mathlib

/-
A verification development for the octopus-to-tado-sync repository.

The repository consists of three Python scripts that pull gas-consumption
intervals and tariff rates from the Octopus Energy HTTP API and push them
into a Tado account's Energy IQ feature:

* `backfill_by_day.py`   — full backfill: every rate window and every
  cumulative daily reading is pushed, with per-item try/except isolation.
* `sync_octopus_tado.py` — steady-state sync: pushes the grand total
  consumption once and (intends to) push the first rate only.
* `sync_octopus_tado_rates.py` — a rates-only variant.

This file gives a shallow embedding of the data model and of the pure
core of each script (pagination loops, accumulation, date-window
normalization, per-item submission), and proves the specification's
claims about them.  Conventions of the embedding:

* Python floats carrying consumption and tariff values are modelled as
  rationals (`ℚ`); the claims under verification are about exact running
  sums and unit conversions.
* An HTTP interaction is modelled by an oracle `server : String → Resp α`
  mapping a request URL to the outcome that `requests.get` produces for
  it: a well-formed 200 page (`Resp.ok`, carrying the parsed `results`
  array and the optional `next` cursor), a non-success status
  (`Resp.httpErr`), or a raised transport exception (`Resp.exn`).
* Python `while` loops are embedded as fuel-indexed recursive functions
  returning `Option`: `none` means the loop has not finished within the
  given fuel, `some` is the value the surrounding function returns.
* A raised-and-propagated Python exception is an `Except.error`;
  functions that can never raise return a plain value.
* Timestamps are modelled already parsed: `datetime.fromisoformat` on a
  well-formed ISO-8601 string is the identity on the structured
  `DateTime` value, and `strftime("%Y-%m-%d")` formats its date
  component.
-/

namespace OctopusTado

/-! ## Data model (spec §3) -/

/-- One metering period's usage delta, an element of the `results` array
of the consumption endpoint.  Timestamps are kept as the raw strings the
API returns, which is exactly how `backfill_by_day.py` forwards
`interval["interval_end"]` to Tado. -/
structure ConsumptionInterval where
  interval_start : String
  interval_end : String
  consumption : ℚ
deriving DecidableEq

/-- A derived cumulative meter value keyed by the source interval's
`interval_end`. -/
structure CumulativeReading where
  date : String
  running_total : ℚ
deriving DecidableEq

/-- A calendar date, the date component of a parsed timestamp. -/
structure Date where
  year : Nat
  month : Nat
  day : Nat
deriving DecidableEq

/-- A parsed naive timestamp: a calendar date plus a time of day in
seconds.  `datetime - timedelta(days=1)` moves `date` back one calendar
day and leaves the time of day unchanged. -/
structure DateTime where
  date : Date
  seconds : Nat
deriving DecidableEq

/-- A tariff's unit price (pence per kWh, VAT included) over the
half-open validity interval `[valid_from, valid_to)`. -/
structure RateRecord where
  valid_from : DateTime
  valid_to : DateTime
  value_inc_vat : ℚ
deriving DecidableEq

/-- The inclusive calendar-day range handed to Tado's tariff API. -/
structure NormalizedDateWindow where
  date_from : String
  date_to : String
deriving DecidableEq

/-- The Python exceptions relevant to these scripts. -/
inductive PyErr where
  | nameError (msg : String)
  | attributeError (msg : String)
  | requestError (msg : String)
deriving DecidableEq

/-- The outcome of one `requests.get` call, as observed by the calling
code: a well-formed 200 response (parsed `results` plus the value of
`.get("next", ...)`, where `none` models an absent or `null` cursor), a
non-success status code with its body text, or a raised transport
exception. -/
inductive Resp (α : Type) where
  | ok (results : List α) (next : Option String)
  | httpErr (status : Nat) (text : String)
  | exn (e : PyErr)
deriving DecidableEq

/-- A response that is not a well-formed 200 page. -/
def Resp.isFail {α : Type} : Resp α → Bool
  | .ok _ _ => false
  | .httpErr _ _ => true
  | .exn _ => true

/-! ## Calendar arithmetic and `strftime("%Y-%m-%d")` -/

/-- Gregorian leap-year test. -/
def isLeapYear (y : Nat) : Bool :=
  y % 4 == 0 && (y % 100 != 0 || y % 400 == 0)

/-- Number of days in a month of the Gregorian calendar. -/
def daysInMonth (y m : Nat) : Nat :=
  if m = 2 then (if isLeapYear y then 29 else 28)
  else if m = 4 ∨ m = 6 ∨ m = 9 ∨ m = 11 then 30
  else 31

/-- The previous calendar day. -/
def Date.prev (d : Date) : Date :=
  if 1 < d.day then ⟨d.year, d.month, d.day - 1⟩
  else if 1 < d.month then ⟨d.year, d.month - 1, daysInMonth d.year (d.month - 1)⟩
  else ⟨d.year - 1, 12, 31⟩

/-- `datetime - timedelta(days=1)`: the calendar date moves back one day,
the time of day is unchanged. -/
def subOneDay (dt : DateTime) : DateTime :=
  ⟨dt.date.prev, dt.seconds⟩

/-- Zero-padded two-digit field of `strftime`. -/
def pad2 (n : Nat) : String :=
  if n < 10 then "0" ++ toString n else toString n

/-- Zero-padded four-digit year field of `strftime`. -/
def pad4 (n : Nat) : String :=
  if n < 10 then "000" ++ toString n
  else if n < 100 then "00" ++ toString n
  else if n < 1000 then "0" ++ toString n
  else toString n

/-- `dt.strftime("%Y-%m-%d")`: format the date component only. -/
def strftimeYMD (dt : DateTime) : String :=
  pad4 dt.date.year ++ "-" ++ pad2 dt.date.month ++ "-" ++ pad2 dt.date.day

/-- Python's `int()` applied to a float/rational: truncation toward
zero, `Int.tdiv` of numerator by denominator. -/
def pyInt (q : ℚ) : ℤ :=
  q.num.tdiv (q.den : ℤ)

/-! ## The Tado push primitives

`tado.set_eiq_tariff(...)` and `tado.set_eiq_meter_readings(...)` are
external effects; the embedding records the argument tuple of each call
and consults an outcome oracle `push` for whether the call raised. -/

/-- The argument tuple of one `tado.set_eiq_tariff` call. -/
structure TariffCall where
  from_date : String
  to_date : String
  is_period : Bool
  tariff : ℚ
  unit : String
deriving DecidableEq

/-- The argument tuple of one `tado.set_eiq_meter_readings` call; `date`
is `none` when the keyword is omitted (PyTado then defaults it). -/
structure MeterReadingCall where
  reading : ℤ
  date : Option String
deriving DecidableEq

end OctopusTado

namespace OctopusTado.BackfillByDay

/-! ## `src/backfill_by_day.py` -/

/-- Lines 73–102: the pagination loop of
`get_meter_reading_total_consumption`.  State is the current `url` and
the accumulated `consumption` list; fuel bounds the number of loop
iterations.  On a 200 page the `results` are appended and the cursor
becomes `meter_readings.get("next", "")`; a non-success status or a
raised exception `break`s, and the accumulated list is returned either
way (the body of the loop is wrapped in try/except, so the function
never raises). -/
def get_meter_reading_total_consumption
    (server : String → Resp ConsumptionInterval) :
    Nat → String → List ConsumptionInterval → Option (List ConsumptionInterval)
  | 0, url, consumption => if url = "" then some consumption else none
  | fuel + 1, url, consumption =>
    if url = "" then some consumption
    else
      match server url with
      | .ok results next =>
          get_meter_reading_total_consumption server fuel (next.getD "")
            (consumption ++ results)
      | .httpErr _ _ => some consumption
      | .exn _ => some consumption

/-- Lines 105–125: `get_gas_rates`.  The single request is wrapped in
try/except; a non-success status or an exception leaves `rates = []`,
so the function always returns a list and never raises. -/
def get_gas_rates (resp : Resp RateRecord) : List RateRecord :=
  match resp with
  | .ok results _ => results
  | .httpErr _ _ => []
  | .exn _ => []

/-- Lines 128–144: `send_rate_to_tado`.  Builds the
`tado.set_eiq_tariff(from_date=valid_from, to_date=valid_to,
is_period=True, tariff=rate/100, unit="kWh")` call, and converts a raised
exception into `False` via its internal try/except.  The embedding
returns the call made together with the success flag. -/
def send_rate_to_tado (push : TariffCall → Except PyErr String)
    (valid_from valid_to : String) (rate : ℚ) : TariffCall × Bool :=
  let call : TariffCall := ⟨valid_from, valid_to, true, rate / 100, "kWh"⟩
  match push call with
  | .ok _ => (call, true)
  | .error _ => (call, false)

/-- Lines 147–157: `send_reading_to_tado`.  Builds the
`tado.set_eiq_meter_readings(reading=int(reading), date=date)` call and
converts a raised exception into `False`. -/
def send_reading_to_tado (push : MeterReadingCall → Except PyErr String)
    (date : String) (reading : ℚ) : MeterReadingCall × Bool :=
  let call : MeterReadingCall := ⟨pyInt reading, some date⟩
  match push call with
  | .ok _ => (call, true)
  | .error _ => (call, false)

/-- Lines 213–219: the date normalization inside the rate loop of
`__main__`: `date_from = fromisoformat(valid_from).strftime("%Y-%m-%d")`
and `date_to = (fromisoformat(valid_to) - timedelta(days=1))
.strftime("%Y-%m-%d")`. -/
def normalizeWindow (rate : RateRecord) : NormalizedDateWindow :=
  ⟨strftimeYMD rate.valid_from, strftimeYMD (subOneDay rate.valid_to)⟩

/-- Lines 210–223: the rate-submission loop of `__main__`.  Each rate is
normalized and sent; `send_rate_to_tado` already catches push errors and
the surrounding per-item try/except catches the rest, so every item is
processed regardless of earlier failures.  The embedding returns, in
order, the call made for each rate and its success flag. -/
def rateSubmissionLoop (push : TariffCall → Except PyErr String) :
    List RateRecord → List (TariffCall × Bool)
  | [] => []
  | rate :: rest =>
    (let w := normalizeWindow rate
     send_rate_to_tado push w.date_from w.date_to rate.value_inc_vat) ::
      rateSubmissionLoop push rest

/-- Lines 234–248: the meter-reading loop of `__main__`, with
`sum_consumption` as the running accumulator:
`sum_consumption += interval["consumption"]` followed by
`send_reading_to_tado(tado, interval["interval_end"], sum_consumption)`.
-/
def readingSubmissionLoop (push : MeterReadingCall → Except PyErr String)
    (sum_consumption : ℚ) :
    List ConsumptionInterval → List (MeterReadingCall × Bool)
  | [] => []
  | interval :: rest =>
    send_reading_to_tado push interval.interval_end
        (sum_consumption + interval.consumption) ::
      readingSubmissionLoop push (sum_consumption + interval.consumption) rest

/-- The accumulation underlying lines 236–243, detached from the send:
the running total carried into each interval produces one
`CumulativeReading` per interval, keyed by that interval's
`interval_end`. -/
def accumulate (sum_consumption : ℚ) :
    List ConsumptionInterval → List CumulativeReading
  | [] => []
  | interval :: rest =>
    ⟨interval.interval_end, sum_consumption + interval.consumption⟩ ::
      accumulate (sum_consumption + interval.consumption) rest

/-- The Cumulative Reading Builder: the accumulation loop started with
`sum_consumption = 0`. -/
def buildCumulativeReadings (intervals : List ConsumptionInterval) :
    List CumulativeReading :=
  accumulate 0 intervals

end OctopusTado.BackfillByDay

namespace OctopusTado.SyncOctopusTado

open OctopusTado.BackfillByDay (normalizeWindow)

/-! ## `src/sync_octopus_tado.py` -/

/-- Lines 10–34: this variant's `get_meter_reading_total_consumption`
accumulates a single float total (`total_consumption += sum(...)`).
Its loop body has no try/except: a raised transport exception
propagates out of the function, which the embedding records as
`Except.error`; a non-success status `break`s and the partial total is
returned. -/
def get_meter_reading_total_consumption
    (server : String → Resp ConsumptionInterval) :
    Nat → String → ℚ → Option (Except PyErr ℚ)
  | 0, url, total_consumption =>
    if url = "" then some (.ok total_consumption) else none
  | fuel + 1, url, total_consumption =>
    if url = "" then some (.ok total_consumption)
    else
      match server url with
      | .ok results next =>
          get_meter_reading_total_consumption server fuel (next.getD "")
            (total_consumption + (results.map (·.consumption)).sum)
      | .httpErr _ _ => some (.ok total_consumption)
      | .exn e => some (.error e)

/-- Lines 36–56: this variant's `get_gas_rates` has no try/except: a
non-success status yields `[]`, but a raised transport exception
propagates. -/
def get_gas_rates (resp : Resp RateRecord) : Except PyErr (List RateRecord) :=
  match resp with
  | .ok results _ => .ok results
  | .httpErr _ _ => .ok []
  | .exn e => .error e

/-- Lines 130–146: `send_reading_to_tado(username, password, reading,
rates)` pushes `set_eiq_meter_readings(reading=int(reading))` — with no
`date` keyword — and then enters the rate loop, whose body would send
the first rate and `break`.  The body's first expression is
`datetime.datetime.fromisoformat(...)`, but the module imports the
*class* (`from datetime import datetime`), so `datetime.datetime` raises
`AttributeError` and no tariff call is ever made: for a non-empty rates
list the function raises after the single reading push.  The embedding
returns the reading call, the (always empty) list of tariff calls, and
the propagated error, if any. -/
def send_reading_to_tado (reading : ℚ) (rates : List RateRecord) :
    MeterReadingCall × List TariffCall × Option PyErr :=
  (⟨pyInt reading, none⟩, [],
    if rates.isEmpty then none
    else some (.attributeError "type object datetime has no attribute datetime"))

/-- What the rate loop of lines 140–146 was written to do, disregarding
the `datetime.datetime` slip: normalize and send the first rate only,
then `break`. -/
def intendedFirstRateWindow (rates : List RateRecord) : List NormalizedDateWindow :=
  (rates.take 1).map normalizeWindow

end OctopusTado.SyncOctopusTado

namespace OctopusTado.SyncOctopusTadoRates

/-! ## `src/sync_octopus_tado_rates.py` -/

/-- Lines 7–27: `get_meter_reading_rates`.  The body's first statement
is `rate = null`; `null` is not defined in Python, so the function
raises `NameError` unconditionally, before the HTTP request is even
made.  (Even ignoring that line, the non-success branch would `return
rates` with `rates` unassigned — another `NameError`.) -/
def get_meter_reading_rates (resp : Resp RateRecord) :
    Except PyErr (List RateRecord) :=
  match resp with
  | _ => .error (.nameError "name null is not defined")

/-- Lines 79–83: the date normalization in this script's rate loop
formats `valid_to` directly — it does *not* subtract one day:
`date_to = datetime.datetime.fromisoformat(rate["valid_to"])
.strftime("%Y-%m-%d")`.  (As written the loop would also raise
`NameError`, since the module never imports `datetime`; this definition
embeds the formatting the line expresses.) -/
def normalizeWindow (rate : RateRecord) : NormalizedDateWindow :=
  ⟨strftimeYMD rate.valid_from, strftimeYMD rate.valid_to⟩

end OctopusTado.SyncOctopusTadoRates

namespace OctopusTado

/-! ## Page-chain shapes of a consumption server -/

/-- Starting at `url`, the server presents a finite chain of well-formed
200 pages with the given `results` arrays; the chain ends because the
last page's `next` cursor is absent, `null`, or `""`, which
`meter_readings.get("next", "")` turns into the empty cursor that ends
the `while url` loop. -/
inductive PageChain (server : String → Resp ConsumptionInterval) :
    String → List (List ConsumptionInterval) → Prop
  | nil : PageChain server "" []
  | cons (url : String) (results : List ConsumptionInterval)
      (next : Option String) (rest : List (List ConsumptionInterval))
      (hne : url ≠ "") (hok : server url = .ok results next)
      (h : PageChain server (next.getD "") rest) :
      PageChain server url (results :: rest)

/-- Starting at `url`, the server presents a finite chain of well-formed
200 pages and then a failing fetch: a non-success status or a raised
transport exception. -/
inductive PageChainFail (server : String → Resp ConsumptionInterval) :
    String → List (List ConsumptionInterval) → Prop
  | fail (url : String) (hne : url ≠ "")
      (hfail : (server url).isFail = true) :
      PageChainFail server url []
  | cons (url : String) (results : List ConsumptionInterval)
      (next : Option String) (rest : List (List ConsumptionInterval))
      (hne : url ≠ "") (hok : server url = .ok results next)
      (h : PageChainFail server (next.getD "") rest) :
      PageChainFail server url (results :: rest)

/-! ## Concrete fixtures used by the closed instances -/

/-- A push oracle whose calls all succeed. -/
def alwaysOk {α : Type} : α → Except PyErr String :=
  fun _ => .ok "ok"

/-- The spec's example rate record: `valid_from = 2025-01-01T00:00:00Z`,
`valid_to = 2025-02-01T00:00:00Z`, at 6.3 p/kWh. -/
def exRate : RateRecord :=
  ⟨⟨⟨2025, 1, 1⟩, 0⟩, ⟨⟨2025, 2, 1⟩, 0⟩, 63 / 10⟩

/-- A single-day rate: `valid_to` is midnight of the day after
`valid_from`. -/
def exRateSingleDay : RateRecord :=
  ⟨⟨⟨2025, 1, 1⟩, 0⟩, ⟨⟨2025, 1, 2⟩, 0⟩, 5⟩

/-- Three consumption intervals with non-negative deltas. -/
def exIntervals : List ConsumptionInterval :=
  [⟨"2025-03-03T00:00:00Z", "2025-03-04T00:00:00Z", 3 / 2⟩,
   ⟨"2025-03-04T00:00:00Z", "2025-03-05T00:00:00Z", 0⟩,
   ⟨"2025-03-05T00:00:00Z", "2025-03-06T00:00:00Z", 2⟩]

/-- Two consumption intervals, the second with a negative delta. -/
def negIntervals : List ConsumptionInterval :=
  [⟨"2025-03-03T00:00:00Z", "2025-03-04T00:00:00Z", 5⟩,
   ⟨"2025-03-04T00:00:00Z", "2025-03-05T00:00:00Z", -3⟩]

/-- Five single-day rate records, March 1–5, 2025. -/
def rates5 : List RateRecord :=
  [⟨⟨⟨2025, 3, 1⟩, 0⟩, ⟨⟨2025, 3, 2⟩, 0⟩, 6⟩,
   ⟨⟨⟨2025, 3, 2⟩, 0⟩, ⟨⟨2025, 3, 3⟩, 0⟩, 7⟩,
   ⟨⟨⟨2025, 3, 3⟩, 0⟩, ⟨⟨2025, 3, 4⟩, 0⟩, 8⟩,
   ⟨⟨⟨2025, 3, 4⟩, 0⟩, ⟨⟨2025, 3, 5⟩, 0⟩, 9⟩,
   ⟨⟨⟨2025, 3, 5⟩, 0⟩, ⟨⟨2025, 3, 6⟩, 0⟩, 10⟩]

/-- A push oracle that raises exactly on the third rate of `rates5`
(the one whose normalized window starts `2025-03-03`). -/
def push5 : TariffCall → Except PyErr String :=
  fun call =>
    if call.from_date = "2025-03-03" then .error (.requestError "boom")
    else .ok "ok"

/-- One consumption record for each page of the mocked chains. -/
def rec1 : ConsumptionInterval :=
  ⟨"2025-03-03T00:00:00Z", "2025-03-04T00:00:00Z", 3⟩

def rec2 : ConsumptionInterval :=
  ⟨"2025-03-04T00:00:00Z", "2025-03-05T00:00:00Z", 4⟩

/-- The spec's mocked 3-page chain: page 1 succeeds and points at page
2, page 2 answers HTTP 500, page 3 would succeed but is never reached.
-/
def server500 : String → Resp ConsumptionInterval :=
  fun url =>
    if url = "page1" then .ok [rec1] (some "page2")
    else if url = "page2" then .httpErr 500 "Internal Server Error"
    else if url = "page3" then .ok [rec2] none
    else .exn (.requestError "unknown url")

/-- A chain where page 1 succeeds and fetching page 2 raises a
transport-level exception. -/
def serverConn : String → Resp ConsumptionInterval :=
  fun url =>
    if url = "page1" then .ok [rec1] (some "page2")
    else .exn (.requestError "ConnectionError")

/-- A well-formed 2-page chain whose last page has a null `next`. -/
def serverDone : String → Resp ConsumptionInterval :=
  fun url =>
    if url = "page1" then .ok [rec1] (some "page2")
    else if url = "page2" then .ok [rec2] none
    else .exn (.requestError "unknown url")

/-! ## Helper lemmas about the accumulation loop -/

namespace BackfillByDay

lemma accumulate_length (l : List ConsumptionInterval) (s : ℚ) :
    (accumulate s l).length = l.length := by
  induction l generalizing s with
  | nil => rfl
  | cons x rest ih => simp [accumulate, ih]

lemma accumulate_map_date (l : List ConsumptionInterval) (s : ℚ) :
    (accumulate s l).map (·.date) = l.map (·.interval_end) := by
  induction l generalizing s with
  | nil => rfl
  | cons x rest ih => simp [accumulate, ih]

lemma accumulate_getElem (l : List ConsumptionInterval) (s : ℚ) (i : Nat)
    (h : i < (accumulate s l).length) :
    ((accumulate s l)[i]).running_total
      = s + ((l.take (i + 1)).map (·.consumption)).sum := by
  induction l generalizing s i with
  | nil => simp [accumulate] at h
  | cons x rest ih =>
    cases i with
    | zero => simp [accumulate]
    | succ n =>
      have h' : n < (accumulate (s + x.consumption) rest).length := by
        simpa [accumulate] using h
      simp only [accumulate, List.getElem_cons_succ]
      rw [ih (s + x.consumption) n h']
      simp [List.take_succ_cons, add_assoc]

lemma accumulate_chain (l : List ConsumptionInterval) (s : ℚ)
    (h : ∀ x ∈ l, 0 ≤ x.consumption) :
    List.Chain (· ≤ ·) s ((accumulate s l).map (·.running_total)) := by
  induction l generalizing s with
  | nil => simp [accumulate]
  | cons x rest ih =>
    simp only [accumulate, List.map_cons]
    refine List.Chain.cons ?_ (ih (s + x.consumption) ?_)
    · have := h x (by simp)
      linarith
    · intro y hy
      exact h y (by simp [hy])

lemma accumulate_chain' (l : List ConsumptionInterval) (s : ℚ)
    (h : ∀ x ∈ l, 0 ≤ x.consumption) :
    List.Chain' (· ≤ ·) ((accumulate s l).map (·.running_total)) := by
  have hc := accumulate_chain l s h
  cases hm : (accumulate s l).map (·.running_total) with
  | nil => simp
  | cons a t =>
    rw [hm, List.chain_cons] at hc
    exact hc.2

lemma accumulate_last (l : List ConsumptionInterval) (s : ℚ) (h : l ≠ []) :
    ((accumulate s l).map (·.running_total)).getLast?
      = some (s + (l.map (·.consumption)).sum) := by
  induction l generalizing s with
  | nil => exact absurd rfl h
  | cons x rest ih =>
    cases rest with
    | nil => simp [accumulate]
    | cons y t =>
      have h2 := ih (s + x.consumption) (by simp)
      simp only [accumulate, List.map_cons] at h2 ⊢
      rw [List.getLast?_cons_cons, h2]
      simp [add_assoc]

/-! ## Helper lemmas about the push primitives and submission loops -/

lemma send_rate_to_tado_fst (push : TariffCall → Except PyErr String)
    (valid_from valid_to : String) (rate : ℚ) :
    (send_rate_to_tado push valid_from valid_to rate).1
      = ⟨valid_from, valid_to, true, rate / 100, "kWh"⟩ := by
  cases h : push ⟨valid_from, valid_to, true, rate / 100, "kWh"⟩ <;>
    simp [send_rate_to_tado, h]

lemma send_rate_to_tado_snd (push : TariffCall → Except PyErr String)
    (valid_from valid_to : String) (rate : ℚ) :
    (send_rate_to_tado push valid_from valid_to rate).2
      = (push ⟨valid_from, valid_to, true, rate / 100, "kWh"⟩).isOk := by
  cases h : push ⟨valid_from, valid_to, true, rate / 100, "kWh"⟩ <;>
    simp [send_rate_to_tado, h, Except.isOk, Except.toBool]

lemma send_reading_to_tado_fst (push : MeterReadingCall → Except PyErr String)
    (date : String) (reading : ℚ) :
    (send_reading_to_tado push date reading).1 = ⟨pyInt reading, some date⟩ := by
  cases h : push ⟨pyInt reading, some date⟩ <;>
    simp [send_reading_to_tado, h]

lemma rateSubmissionLoop_map_fst (push : TariffCall → Except PyErr String)
    (rates : List RateRecord) :
    (rateSubmissionLoop push rates).map Prod.fst
      = rates.map (fun r =>
          (⟨(normalizeWindow r).date_from, (normalizeWindow r).date_to, true,
            r.value_inc_vat / 100, "kWh"⟩ : TariffCall)) := by
  induction rates with
  | nil => rfl
  | cons r rest ih =>
    simp only [rateSubmissionLoop, List.map_cons, ih, send_rate_to_tado_fst]

lemma rateSubmissionLoop_map_snd (push : TariffCall → Except PyErr String)
    (rates : List RateRecord) :
    (rateSubmissionLoop push rates).map Prod.snd
      = rates.map (fun r =>
          (push ⟨(normalizeWindow r).date_from, (normalizeWindow r).date_to, true,
            r.value_inc_vat / 100, "kWh"⟩).isOk) := by
  induction rates with
  | nil => rfl
  | cons r rest ih =>
    simp only [rateSubmissionLoop, List.map_cons, ih, send_rate_to_tado_snd]

lemma rateSubmissionLoop_length (push : TariffCall → Except PyErr String)
    (rates : List RateRecord) :
    (rateSubmissionLoop push rates).length = rates.length := by
  have := congrArg List.length (rateSubmissionLoop_map_fst push rates)
  simpa using this

lemma readingSubmissionLoop_map_fst (push : MeterReadingCall → Except PyErr String)
    (s : ℚ) (l : List ConsumptionInterval) :
    (readingSubmissionLoop push s l).map Prod.fst
      = (accumulate s l).map
          (fun cr => (⟨pyInt cr.running_total, some cr.date⟩ : MeterReadingCall)) := by
  induction l generalizing s with
  | nil => rfl
  | cons x rest ih =>
    simp only [readingSubmissionLoop, accumulate, List.map_cons, ih,
      send_reading_to_tado_fst]

/-! ## Helper lemmas about the backfill pagination loop -/

lemma bd_fetch_url_empty (server : String → Resp ConsumptionInterval)
    (fuel : Nat) (acc : List ConsumptionInterval) :
    get_meter_reading_total_consumption server fuel "" acc = some acc := by
  cases fuel <;> simp [get_meter_reading_total_consumption]

lemma bd_fetch_chain (server : String → Resp ConsumptionInterval)
    (url : String) (pages : List (List ConsumptionInterval))
    (h : PageChain server url pages) :
    ∀ (extra : Nat) (acc : List ConsumptionInterval),
      get_meter_reading_total_consumption server (pages.length + extra) url acc
        = some (acc ++ pages.flatten) := by
  induction h with
  | nil =>
    intro extra acc
    simp [bd_fetch_url_empty]
  | cons url results next rest hne hok hrec ih =>
    intro extra acc
    have hfuel : (results :: rest).length + extra = (rest.length + extra) + 1 := by
      simp [List.length_cons]; omega
    rw [hfuel]
    simp only [get_meter_reading_total_consumption]
    rw [if_neg hne, hok]
    have := ih extra (acc ++ results)
    simpa [List.append_assoc] using this

lemma bd_fetch_chain_fail (server : String → Resp ConsumptionInterval)
    (url : String) (pages : List (List ConsumptionInterval))
    (h : PageChainFail server url pages) :
    ∀ (extra : Nat) (acc : List ConsumptionInterval),
      get_meter_reading_total_consumption server (pages.length + 1 + extra) url acc
        = some (acc ++ pages.flatten) := by
  induction h with
  | fail url hne hfail =>
    intro extra acc
    have hfuel : ([] : List (List ConsumptionInterval)).length + 1 + extra
        = extra + 1 := by simp; omega
    rw [hfuel]
    simp only [get_meter_reading_total_consumption]
    rw [if_neg hne]
    revert hfail
    cases hs : server url with
    | ok results next => simp [Resp.isFail]
    | httpErr s t => intro _; simp
    | exn e => intro _; simp
  | cons url results next rest hne hok hrec ih =>
    intro extra acc
    have hfuel : (results :: rest).length + 1 + extra
        = (rest.length + 1 + extra) + 1 := by simp [List.length_cons]; omega
    rw [hfuel]
    simp only [get_meter_reading_total_consumption]
    rw [if_neg hne, hok]
    have := ih extra (acc ++ results)
    simpa [List.append_assoc] using this

end BackfillByDay

/-! ## Helper lemmas about the steady-state pagination loop -/

namespace SyncOctopusTado

lemma sync_fetch_url_empty (server : String → Resp ConsumptionInterval)
    (fuel : Nat) (t : ℚ) :
    get_meter_reading_total_consumption server fuel "" t = some (.ok t) := by
  cases fuel <;> simp [get_meter_reading_total_consumption]

lemma sync_fetch_chain (server : String → Resp ConsumptionInterval)
    (url : String) (pages : List (List ConsumptionInterval))
    (h : PageChain server url pages) :
    ∀ (extra : Nat) (t : ℚ),
      get_meter_reading_total_consumption server (pages.length + extra) url t
        = some (.ok (t + (pages.flatten.map (·.consumption)).sum)) := by
  induction h with
  | nil =>
    intro extra t
    simp [sync_fetch_url_empty]
  | cons url results next rest hne hok hrec ih =>
    intro extra t
    have hfuel : (results :: rest).length + extra = (rest.length + extra) + 1 := by
      simp [List.length_cons]; omega
    rw [hfuel]
    simp only [get_meter_reading_total_consumption]
    rw [if_neg hne, hok]
    have := ih extra (t + (results.map (·.consumption)).sum)
    simpa [add_assoc] using this

lemma sync_fetch_httpErr (server : String → Resp ConsumptionInterval)
    (url : String) (t : ℚ) (s : Nat) (m : String) (fuel : Nat)
    (hne : url ≠ "") (hs : server url = .httpErr s m) :
    get_meter_reading_total_consumption server (fuel + 1) url t
      = some (.ok t) := by
  simp only [get_meter_reading_total_consumption]
  rw [if_neg hne, hs]

lemma sync_fetch_exn (server : String → Resp ConsumptionInterval)
    (url : String) (t : ℚ) (e : PyErr) (fuel : Nat)
    (hne : url ≠ "") (hs : server url = .exn e) :
    get_meter_reading_total_consumption server (fuel + 1) url t
      = some (.error e) := by
  simp only [get_meter_reading_total_consumption]
  rw [if_neg hne, hs]

end SyncOctopusTado

/-! ## Helper lemmas about `int()` truncation -/

lemma pyInt_eq_floor (q : ℚ) (h : 0 ≤ q) : pyInt q = ⌊q⌋ := by
  unfold pyInt
  rw [Int.tdiv_eq_ediv (Rat.num_nonneg.2 h) (by positivity)]
  exact (Rat.floor_def).symm

lemma pyInt_bounds (q : ℚ) (h : 0 ≤ q) :
    (pyInt q : ℚ) ≤ q ∧ q < (pyInt q : ℚ) + 1 := by
  rw [pyInt_eq_floor q h]
  constructor
  · exact Int.floor_le q
  · exact_mod_cast Int.lt_floor_add_one q

lemma pyInt_259_10 : pyInt (259 / 10 : ℚ) = 25 := by
  rw [pyInt_eq_floor _ (by norm_num), Int.floor_eq_iff]; norm_num

/-- The running totals of the builder, read through `getElem?`: entry
`i` is the sum of the consumption of intervals `0..i` inclusive. -/
lemma BackfillByDay.build_getElem? (intervals : List ConsumptionInterval)
    (i : Nat) (h : i < intervals.length) :
    ((BackfillByDay.buildCumulativeReadings intervals).map
        (·.running_total))[i]?
      = some (((intervals.take (i + 1)).map (·.consumption)).sum) := by
  have hlen : i < (BackfillByDay.accumulate 0 intervals).length := by
    rw [BackfillByDay.accumulate_length]; exact h
  rw [BackfillByDay.buildCumulativeReadings, List.getElem?_map,
    List.getElem?_eq_getElem hlen]
  simp [BackfillByDay.accumulate_getElem intervals 0 i hlen]

/-! ## The claims -/

/-- C1: the Cumulative Reading Builder produces exactly one
`CumulativeReading` per interval; the `i`-th reading's `running_total`
equals the sum of the consumption values of intervals `0` through `i`
inclusive and is keyed by that interval's `interval_end`; when every
consumption value is non-negative, the sequence of running totals is
non-decreasing and the final running total equals the sum of all
deltas. -/
theorem claim_C1_cumulative_reading_builder
    (intervals : List ConsumptionInterval) :
    (BackfillByDay.buildCumulativeReadings intervals).length = intervals.length
    ∧ (BackfillByDay.buildCumulativeReadings intervals).map (·.date)
        = intervals.map (·.interval_end)
    ∧ (∀ (i : Nat), i < intervals.length →
        ((BackfillByDay.buildCumulativeReadings intervals).map
            (·.running_total))[i]?
          = some (((intervals.take (i + 1)).map (·.consumption)).sum))
    ∧ ((∀ x ∈ intervals, 0 ≤ x.consumption) →
        List.Chain' (· ≤ ·)
          ((BackfillByDay.buildCumulativeReadings intervals).map
            (·.running_total))
        ∧ (intervals ≠ [] →
            ((BackfillByDay.buildCumulativeReadings intervals).map
                (·.running_total)).getLast?
              = some ((intervals.map (·.consumption)).sum))) := by
  refine ⟨BackfillByDay.accumulate_length intervals 0,
    BackfillByDay.accumulate_map_date intervals 0,
    fun i h => BackfillByDay.build_getElem? intervals i h, fun hn => ⟨?_, ?_⟩⟩
  · exact BackfillByDay.accumulate_chain' intervals 0 hn
  · intro hne
    have := BackfillByDay.accumulate_last intervals 0 hne
    simpa [BackfillByDay.buildCumulativeReadings] using this

/-- Witness for C1 at the concrete list `exIntervals`. -/
theorem claim_C1_cumulative_reading_builder_witness :
    ((BackfillByDay.buildCumulativeReadings exIntervals).map
        (·.running_total))[1]?
      = some (((exIntervals.take 2).map (·.consumption)).sum)
    ∧ List.Chain' (· ≤ ·)
        ((BackfillByDay.buildCumulativeReadings exIntervals).map
          (·.running_total))
    ∧ ((BackfillByDay.buildCumulativeReadings exIntervals).map
          (·.running_total)).getLast?
        = some ((exIntervals.map (·.consumption)).sum) := by
  have h := claim_C1_cumulative_reading_builder exIntervals
  have hn : ∀ x ∈ exIntervals, 0 ≤ x.consumption := by
    intro x hx
    simp only [exIntervals, List.mem_cons, List.not_mem_nil, or_false] at hx
    rcases hx with rfl | rfl | rfl
    · show (0 : ℚ) ≤ 3 / 2; norm_num
    · show (0 : ℚ) ≤ 0; norm_num
    · show (0 : ℚ) ≤ 2; norm_num
  exact ⟨h.2.2.1 1 (by simp [exIntervals]), (h.2.2.2 hn).1,
    (h.2.2.2 hn).2 (by simp [exIntervals])⟩

/-- C2 (code-bug evaluation): on the spec's example record
(`valid_from = 2025-01-01T00:00:00Z`, `valid_to = 2025-02-01T00:00:00Z`)
the backfill normalizer produces the inclusive window
`2025-01-01 .. 2025-01-31`, and a single-day rate gives
`date_from = date_to`; the `sync_octopus_tado_rates.py` loop, however,
formats `valid_to` without subtracting a day and yields `2025-02-01`. -/
theorem claim_C2_date_window_normalizer :
    BackfillByDay.normalizeWindow exRate
      = ⟨"2025-01-01", "2025-01-31"⟩
    ∧ BackfillByDay.normalizeWindow exRateSingleDay
      = ⟨"2025-01-01", "2025-01-01"⟩
    ∧ SyncOctopusTadoRates.normalizeWindow exRate
      = ⟨"2025-01-01", "2025-02-01"⟩ := by
  refine ⟨?_, ?_, ?_⟩ <;> rfl

/-- C3 counterexample: the steady-state variant of the Consumption
Fetcher raises on a transport-level failure — on a chain whose second
page fetch raises, the backfill variant returns page 1's records while
the steady-state variant propagates the exception (it does not return
its partial accumulation). -/
theorem claim_C3_counterexample :
    SyncOctopusTado.get_meter_reading_total_consumption serverConn 2 "page1" 0
      = some (.error (.requestError "ConnectionError"))
    ∧ BackfillByDay.get_meter_reading_total_consumption serverConn 2 "page1" []
      = some [rec1] := by
  exact ⟨rfl, rfl⟩

/-- C3 (amended): the backfill Consumption Fetcher never raises — after
any chain of good pages, a non-success status or a transport failure
aborts pagination and returns exactly the records accumulated so far;
in the mocked 3-page chain where page 2 answers HTTP 500 it returns
exactly page 1's records.  The steady-state variant returns its partial
total on a non-success status but propagates transport exceptions. -/
theorem claim_C3_fetcher_error_policy :
    (∀ (server : String → Resp ConsumptionInterval) (url : String)
        (pages : List (List ConsumptionInterval)),
        PageChainFail server url pages →
          ∀ (extra : Nat) (acc : List ConsumptionInterval),
            BackfillByDay.get_meter_reading_total_consumption server
                (pages.length + 1 + extra) url acc
              = some (acc ++ pages.flatten))
    ∧ BackfillByDay.get_meter_reading_total_consumption server500 3 "page1" []
        = some [rec1]
    ∧ (∀ (server : String → Resp ConsumptionInterval) (url : String)
        (t : ℚ) (s : Nat) (m : String) (fuel : Nat),
        url ≠ "" → server url = .httpErr s m →
          SyncOctopusTado.get_meter_reading_total_consumption server
              (fuel + 1) url t = some (.ok t))
    ∧ (∀ (server : String → Resp ConsumptionInterval) (url : String)
        (t : ℚ) (e : PyErr) (fuel : Nat),
        url ≠ "" → server url = .exn e →
          SyncOctopusTado.get_meter_reading_total_consumption server
              (fuel + 1) url t = some (.error e)) := by
  refine ⟨BackfillByDay.bd_fetch_chain_fail, rfl,
    fun server url t s m fuel hne hs =>
      SyncOctopusTado.sync_fetch_httpErr server url t s m fuel hne hs,
    fun server url t e fuel hne hs =>
      SyncOctopusTado.sync_fetch_exn server url t e fuel hne hs⟩

/-- Witness for C3: a one-good-page chain followed by an HTTP 500 for
the backfill fetcher, and a direct transport failure for the
steady-state fetcher. -/
theorem claim_C3_fetcher_error_policy_witness :
    BackfillByDay.get_meter_reading_total_consumption server500 2 "page1" []
      = some ([] ++ [[rec1]].flatten)
    ∧ SyncOctopusTado.get_meter_reading_total_consumption serverConn 1 "page2" 0
      = some (.error (.requestError "ConnectionError")) := by
  have hchain : PageChainFail server500 "page1" [[rec1]] := by
    refine PageChainFail.cons "page1" [rec1] (some "page2") [] (by decide) rfl ?_
    exact PageChainFail.fail "page2" (by decide) rfl
  exact ⟨claim_C3_fetcher_error_policy.1 server500 "page1" [[rec1]] hchain 0 [],
    claim_C3_fetcher_error_policy.2.2.2 serverConn "page2" 0
      (.requestError "ConnectionError") 0 (by decide) rfl⟩

/-- C4 counterexample: two of the three Rate Fetcher variants can raise
— the steady-state `get_gas_rates` propagates a transport exception, and
`get_meter_reading_rates` raises `NameError` even on a success
response. -/
theorem claim_C4_counterexample :
    SyncOctopusTado.get_gas_rates (.exn (.requestError "ConnectionError"))
      = .error (.requestError "ConnectionError")
    ∧ SyncOctopusTadoRates.get_meter_reading_rates (.ok [exRate] none)
      = .error (.nameError "name null is not defined") := by
  exact ⟨rfl, rfl⟩

/-- C4 (amended): the backfill `get_gas_rates` never raises — a success
status yields the page's `results`, a non-success status or a transport
error yields `[]`; the steady-state variant returns `results` on
success and `[]` on a non-success status but propagates transport
exceptions; the rates-script variant raises `NameError`
unconditionally. -/
theorem claim_C4_rate_fetcher_error_policy :
    (∀ (results : List RateRecord) (next : Option String),
        BackfillByDay.get_gas_rates (.ok results next) = results)
    ∧ (∀ (s : Nat) (m : String), BackfillByDay.get_gas_rates (.httpErr s m) = [])
    ∧ (∀ (e : PyErr), BackfillByDay.get_gas_rates (.exn e) = [])
    ∧ (∀ (results : List RateRecord) (next : Option String),
        SyncOctopusTado.get_gas_rates (.ok results next) = .ok results)
    ∧ (∀ (s : Nat) (m : String),
        SyncOctopusTado.get_gas_rates (.httpErr s m) = .ok [])
    ∧ (∀ (e : PyErr), SyncOctopusTado.get_gas_rates (.exn e) = .error e)
    ∧ (∀ (resp : Resp RateRecord),
        SyncOctopusTadoRates.get_meter_reading_rates resp
          = .error (.nameError "name null is not defined")) := by
  exact ⟨fun _ _ => rfl, fun _ _ => rfl, fun _ => rfl, fun _ _ => rfl,
    fun _ _ => rfl, fun _ => rfl, fun _ => rfl⟩

/-- C5: the backfill Submission Driver attempts a push for each
transformed item, in input order, one call per item, whatever the push
outcomes are (a failing push is caught and turned into a `false` flag,
so it never prevents later items); in the concrete 5-rate run where
item 3's push raises, items 4 and 5 are still attempted and the run
yields exactly 4 successes and 1 failure. -/
theorem claim_C5_submission_isolation :
    (∀ (push : TariffCall → Except PyErr String) (rates : List RateRecord),
        (BackfillByDay.rateSubmissionLoop push rates).map Prod.fst
          = rates.map (fun r =>
              (⟨(BackfillByDay.normalizeWindow r).date_from,
                (BackfillByDay.normalizeWindow r).date_to, true,
                r.value_inc_vat / 100, "kWh"⟩ : TariffCall)))
    ∧ (∀ (push : MeterReadingCall → Except PyErr String) (s : ℚ)
        (l : List ConsumptionInterval),
        (BackfillByDay.readingSubmissionLoop push s l).map Prod.fst
          = (BackfillByDay.accumulate s l).map
              (fun cr => (⟨pyInt cr.running_total, some cr.date⟩ :
                MeterReadingCall)))
    ∧ (BackfillByDay.rateSubmissionLoop push5 rates5).map Prod.snd
        = [true, true, false, true, true]
    ∧ ((BackfillByDay.rateSubmissionLoop push5 rates5).map Prod.snd).count true
        = 4
    ∧ ((BackfillByDay.rateSubmissionLoop push5 rates5).map Prod.snd).count false
        = 1 := by
  exact ⟨BackfillByDay.rateSubmissionLoop_map_fst,
    BackfillByDay.readingSubmissionLoop_map_fst, rfl, rfl, rfl⟩

/-- C6 (code-bug evaluation): the full-backfill entry point pushes every
normalized rate window and one reading per interval, whereas the
steady-state entry point pushes the truncated grand total — the latest
cumulative value — with no date and then raises `AttributeError` inside
its rate loop before any tariff call is made, so its "current rate" push
never happens. -/
theorem claim_C6_two_modes :
    (BackfillByDay.rateSubmissionLoop alwaysOk [exRate]).map Prod.fst
      = [⟨"2025-01-01", "2025-01-31", true, (63 / 10 : ℚ) / 100, "kWh"⟩]
    ∧ (BackfillByDay.readingSubmissionLoop alwaysOk 0 exIntervals).map Prod.fst
      = [⟨pyInt (3 / 2 : ℚ), some "2025-03-04T00:00:00Z"⟩,
         ⟨pyInt (3 / 2 : ℚ), some "2025-03-05T00:00:00Z"⟩,
         ⟨pyInt (7 / 2 : ℚ), some "2025-03-06T00:00:00Z"⟩]
    ∧ ((BackfillByDay.buildCumulativeReadings exIntervals).map
          (·.running_total)).getLast? = some (7 / 2 : ℚ)
    ∧ SyncOctopusTado.send_reading_to_tado (7 / 2) [exRate]
      = (⟨pyInt (7 / 2 : ℚ), none⟩, [],
         some (.attributeError "type object datetime has no attribute datetime"))
    ∧ SyncOctopusTado.intendedFirstRateWindow [exRate]
      = [⟨"2025-01-01", "2025-01-31"⟩] := by
  refine ⟨rfl, ?_, ?_, rfl, rfl⟩
  · rw [BackfillByDay.readingSubmissionLoop_map_fst]
    simp only [BackfillByDay.accumulate, exIntervals, List.map_cons,
      List.map_nil]
    norm_num
  · simp only [BackfillByDay.buildCumulativeReadings,
      BackfillByDay.accumulate, exIntervals, List.map_cons, List.map_nil,
      List.getLast?_cons_cons]
    norm_num

/-- C7 counterexample: fed an interval sequence containing a negative
delta, the builder folds it into the running total unchanged — the
totals strictly decrease and nothing flags the violation. -/
theorem claim_C7_counterexample :
    (BackfillByDay.buildCumulativeReadings negIntervals).map (·.running_total)
      = [5, 2]
    ∧ ¬ List.Chain' (· ≤ ·)
        ((BackfillByDay.buildCumulativeReadings negIntervals).map
          (·.running_total)) := by
  have h : (BackfillByDay.buildCumulativeReadings negIntervals).map
      (·.running_total) = [5, 2] := by
    simp only [BackfillByDay.buildCumulativeReadings,
      BackfillByDay.accumulate, negIntervals, List.map_cons, List.map_nil]
    norm_num
  refine ⟨h, ?_⟩
  rw [h]
  simp only [List.chain'_cons, List.chain'_singleton, and_true]
  norm_num

/-- C7 (amended): the builder does not flag negative deltas — even when
some consumption value is negative, each running total is the plain
prefix sum, so the negative delta silently enters the total and the
non-decreasing invariant can fail without notice. -/
theorem claim_C7_negative_delta_not_flagged
    (intervals : List ConsumptionInterval)
    (_hneg : ∃ x ∈ intervals, x.consumption < 0) :
    ∀ (i : Nat), i < intervals.length →
      ((BackfillByDay.buildCumulativeReadings intervals).map
          (·.running_total))[i]?
        = some (((intervals.take (i + 1)).map (·.consumption)).sum) := by
  intro i h
  exact BackfillByDay.build_getElem? intervals i h

/-- Witness for C7: the negative-delta list `negIntervals`. -/
theorem claim_C7_negative_delta_not_flagged_witness :
    ((BackfillByDay.buildCumulativeReadings negIntervals).map
        (·.running_total))[1]?
      = some (((negIntervals.take 2).map (·.consumption)).sum) := by
  refine claim_C7_negative_delta_not_flagged negIntervals ?_ 1
    (by simp [negIntervals])
  refine ⟨⟨"2025-03-04T00:00:00Z", "2025-03-05T00:00:00Z", -3⟩,
    by simp [negIntervals], ?_⟩
  show (-3 : ℚ) < 0
  norm_num

/-- C8: every tariff push passes `value_inc_vat / 100` — the
pence-per-kWh price converted to currency per kWh, so 100 times the
pushed value gives back the source price — together with the normalized
inclusive date window, `is_period=True`, and unit `"kWh"`. -/
theorem claim_C8_tariff_unit_conversion :
    (∀ (push : TariffCall → Except PyErr String) (vf vt : String) (rate : ℚ),
        (BackfillByDay.send_rate_to_tado push vf vt rate).1
          = ⟨vf, vt, true, rate / 100, "kWh"⟩)
    ∧ (∀ (push : TariffCall → Except PyErr String) (vf vt : String)
        (rate : ℚ),
        100 * (BackfillByDay.send_rate_to_tado push vf vt rate).1.tariff
          = rate)
    ∧ (∀ (push : TariffCall → Except PyErr String) (r : RateRecord),
        (BackfillByDay.rateSubmissionLoop push [r]).map Prod.fst
          = [⟨(BackfillByDay.normalizeWindow r).date_from,
              (BackfillByDay.normalizeWindow r).date_to, true,
              r.value_inc_vat / 100, "kWh"⟩]) := by
  refine ⟨BackfillByDay.send_rate_to_tado_fst, ?_, ?_⟩
  · intro push vf vt rate
    rw [BackfillByDay.send_rate_to_tado_fst]
    show 100 * (rate / 100) = rate
    rw [mul_comm]
    exact div_mul_cancel₀ rate (by norm_num)
  · intro push r
    rw [BackfillByDay.rateSubmissionLoop_map_fst]
    rfl

/-- C9 counterexample: the steady-state entry point submits its reading
with no date at all — `set_eiq_meter_readings(reading=int(reading))`
sends only the truncated value, so the submission is not paired with the
reading's date. -/
theorem claim_C9_counterexample :
    (SyncOctopusTado.send_reading_to_tado (259 / 10) []).1
      = ⟨pyInt (259 / 10 : ℚ), none⟩
    ∧ (SyncOctopusTado.send_reading_to_tado (259 / 10) []).1.date = none := by
  exact ⟨rfl, rfl⟩

/-- C9 (amended): every submitted reading value is `int(running_total)`
— truncation toward zero, which drops the fractional part rather than
rounding (25.9 becomes 25); the backfill entry point pairs the value
with the reading's date, while the steady-state entry point passes no
date. -/
theorem claim_C9_reading_truncation :
    (∀ (push : MeterReadingCall → Except PyErr String) (d : String) (q : ℚ),
        (BackfillByDay.send_reading_to_tado push d q).1 = ⟨pyInt q, some d⟩)
    ∧ (∀ q : ℚ, 0 ≤ q → (pyInt q : ℚ) ≤ q ∧ q < (pyInt q : ℚ) + 1)
    ∧ pyInt (259 / 10 : ℚ) = 25
    ∧ (∀ (q : ℚ) (rates : List RateRecord),
        (SyncOctopusTado.send_reading_to_tado q rates).1 = ⟨pyInt q, none⟩) := by
  exact ⟨BackfillByDay.send_reading_to_tado_fst, pyInt_bounds, pyInt_259_10,
    fun _ _ => rfl⟩

/-- Witness for C9 at the concrete total 25.9. -/
theorem claim_C9_reading_truncation_witness :
    (pyInt (259 / 10 : ℚ) : ℚ) ≤ 259 / 10
    ∧ (259 / 10 : ℚ) < (pyInt (259 / 10 : ℚ) : ℚ) + 1 := by
  exact claim_C9_reading_truncation.2.1 (259 / 10) (by norm_num)

/-- C10: for every finite chain of pages whose last page has a null or
absent `next` cursor, both pagination loops terminate — the missing
cursor becomes the empty URL, which ends the `while` loop — within fuel
equal to the number of pages, returning the concatenation
(respectively, the sum) of all pages' records. -/
theorem claim_C10_pagination_terminates :
    (∀ (server : String → Resp ConsumptionInterval) (fuel : Nat)
        (acc : List ConsumptionInterval),
        BackfillByDay.get_meter_reading_total_consumption server fuel "" acc
          = some acc)
    ∧ (∀ (server : String → Resp ConsumptionInterval) (url : String)
        (pages : List (List ConsumptionInterval)),
        PageChain server url pages →
          ∀ (extra : Nat) (acc : List ConsumptionInterval),
            BackfillByDay.get_meter_reading_total_consumption server
                (pages.length + extra) url acc
              = some (acc ++ pages.flatten))
    ∧ (∀ (server : String → Resp ConsumptionInterval) (url : String)
        (pages : List (List ConsumptionInterval)),
        PageChain server url pages →
          ∀ (extra : Nat) (t : ℚ),
            SyncOctopusTado.get_meter_reading_total_consumption server
                (pages.length + extra) url t
              = some (.ok (t + (pages.flatten.map (·.consumption)).sum))) := by
  exact ⟨BackfillByDay.bd_fetch_url_empty, BackfillByDay.bd_fetch_chain,
    SyncOctopusTado.sync_fetch_chain⟩

/-- Witness for C10: a concrete 2-page chain ending with a null `next`.
-/
theorem claim_C10_pagination_terminates_witness :
    BackfillByDay.get_meter_reading_total_consumption serverDone 2 "page1" []
      = some ([] ++ [[rec1], [rec2]].flatten)
    ∧ SyncOctopusTado.get_meter_reading_total_consumption serverDone 2 "page1" 0
      = some (.ok (0 + ([[rec1], [rec2]].flatten.map (·.consumption)).sum)) := by
  have hchain : PageChain serverDone "page1" [[rec1], [rec2]] := by
    refine PageChain.cons "page1" [rec1] (some "page2") [[rec2]]
      (by decide) rfl ?_
    refine PageChain.cons "page2" [rec2] none [] (by decide) rfl ?_
    exact PageChain.nil
  exact ⟨claim_C10_pagination_terminates.2.1 serverDone "page1"
      [[rec1], [rec2]] hchain 0 [],
    claim_C10_pagination_terminates.2.2 serverDone "page1"
      [[rec1], [rec2]] hchain 0 0⟩

end OctopusTado
